import Mathlib

/-!
Shallow embedding of the Coach Marketplace API service (src/main.py).

The service is a stateless request handler over a document store.  We model
the store as explicit lists of documents per collection, store identifiers
(BSON ObjectIds) as their 24-hex-character string form, timestamps as
naturals, and numeric ratings as rationals.  Each fallible handler returns
an Except value carrying an HTTPException on the error path; handlers that
write to the store also return the resulting store.

The repository imports database.py and schemas.py, which are not part of
the source snapshot; the primitives they provide (insert-document and
find-documents, and the pydantic input shapes) are modelled from the spec
where so marked.
-/

/-- A BSON ObjectId is well formed iff it is a 24-character hex string.
`ObjectId(s)` in the handler raises exactly when this fails. -/
def isValidOid (s : String) : Bool :=
  s.length = 24 && s.toList.all (fun c => c.isDigit || ('a' ≤ c && c ≤ 'f') || ('A' ≤ c && c ≤ 'F'))

/-- ASCII-lowercase a string (reduction-friendly form of str.lower()). -/
def strLower (s : String) : String := ⟨s.toList.map Char.toLower⟩

/-- The characters of a string, lowercased. -/
def lowerChars (s : String) : List Char := s.toList.map Char.toLower

/-- fastapi.HTTPException: a status code plus a free-text detail message. -/
structure HTTPException where
  status_code : Nat
  detail : String
deriving DecidableEq, Repr

/-- A coach document as stored (src/main.py uses full_name, bio, sports,
location_city, location_state plus the derived aggregate fields). -/
structure CoachDoc where
  oid : String
  full_name : String
  bio : String
  sports : List String
  location_city : String
  location_state : String
  average_rating : Option ℚ
  review_count : Option Nat
deriving DecidableEq, Repr

/-- A review document: coach_id is a plain string reference; rating may be
absent in a stored document (then treated as 0 by the aggregate). -/
structure ReviewDoc where
  oid : String
  coach_id : String
  rating : Option ℚ
  text : String
  created_at : Option Nat
deriving DecidableEq, Repr

/-- A booking document. -/
structure BookingDoc where
  oid : String
  coach_id : String
  user_type : String
  athlete_age : Option Int
  created_at : Option Nat
deriving DecidableEq, Repr

/-- The document store: one list per collection, in store-native order. -/
structure Store where
  coaches : List CoachDoc
  reviews : List ReviewDoc
  bookings : List BookingDoc
deriving DecidableEq, Repr

/-- Response shape of a coach after the handler renames _id to id. -/
structure CoachOut where
  id : String
  full_name : String
  bio : String
  sports : List String
  location_city : String
  location_state : String
  average_rating : Option ℚ
  review_count : Option Nat
deriving DecidableEq, Repr

/-- c["id"] = str(c["_id"]); c.pop("_id"). -/
def shapeCoach (c : CoachDoc) : CoachOut :=
  { id := c.oid, full_name := c.full_name, bio := c.bio, sports := c.sports,
    location_city := c.location_city, location_state := c.location_state,
    average_rating := c.average_rating, review_count := c.review_count }

/-- Modelled from the spec: the pydantic Review input shape from the missing
schemas.py — coach_id, rating (numeric), text, created_at (optional, absent
when the caller omitted it, so that the server may stamp it). -/
structure Review where
  coach_id : String
  rating : Option ℚ
  text : String
  created_at : Option Nat
deriving DecidableEq, Repr

/-- Modelled from the spec: the pydantic Booking input shape from the missing
schemas.py — coach_id, user_type, athlete_age (optional integer), created_at.
The handler branches on user_type as a plain string. -/
structure Booking where
  coach_id : String
  user_type : String
  athlete_age : Option Int
  created_at : Option Nat
deriving DecidableEq, Repr

/-- GET /coaches/\x7bcoach_id\x7d, the body of the try block: ObjectId(coach_id)
raises on a malformed id (and canonicalizes hex case otherwise — documents
store their identifier in canonical lowercase-hex form); find_one on the
coach collection returns the first document whose _id matches; an absent
document raises HTTPException(404).  The payload of the error is the
exception the try body raised. -/
def get_coach_body (db : Store) (coach_id : String) : Except HTTPException CoachOut :=
  if isValidOid coach_id then
    match db.coaches.find? (fun c => c.oid = strLower coach_id) with
    | none => .error ⟨404, "Coach not found"⟩
    | some doc => .ok (shapeCoach doc)
  else
    .error ⟨400, "Invalid ObjectId"⟩

/-- GET /coaches/\x7bcoach_id\x7d: the except-Exception clause turns every
exception raised inside the try body — the ObjectId parse failure as well as
the handler-raised 404 — into HTTPException(400, "Invalid coach id"). -/
def get_coach (db : Store) (coach_id : String) : Except HTTPException CoachOut :=
  match get_coach_body db coach_id with
  | .ok v => .ok v
  | .error _ => .error ⟨400, "Invalid coach id"⟩

/-- Modelled from the spec: insert-document(collection, data) → id, from the
missing database.py.  The store assigns the fresh identifier; we pass it in
explicitly and append the document in store-native order. -/
def create_document_booking (newOid : String) (db : Store) (b : Booking) : String × Store :=
  (newOid, { db with bookings := db.bookings ++
    [{ oid := newOid, coach_id := b.coach_id, user_type := b.user_type,
       athlete_age := b.athlete_age, created_at := b.created_at }] })

/-- POST /bookings: validates the adult/parent rule, then persists.  The
adult branch raises iff athlete_age is present and < 18; the else branch
(any other user_type) raises iff athlete_age is absent or ≥ 18.  Returns the
response (or the raised HTTPException) together with the resulting store,
which is unchanged when the validation raised. -/
def create_booking (newOid : String) (db : Store) (booking : Booking) :
    Except HTTPException String × Store :=
  let check : Option HTTPException :=
    if booking.user_type = "adult" then
      if booking.athlete_age.any (fun a => a < 18) then
        some ⟨400, "Adults must be 18+"⟩
      else none
    else
      if booking.athlete_age.all (fun a => 18 ≤ a) then
        some ⟨400, "Provide athlete_age for parent bookings and must be < 18"⟩
      else none
  match check with
  | some e => (.error e, db)
  | none =>
    let r := create_document_booking newOid db booking
    (.ok r.1, r.2)

/-- Python truthiness of an Optional[str]: None and the empty string are
falsy; the handler only adds a filter clause for a truthy value. -/
def truthy : Option String → Bool
  | none => false
  | some s => !s.isEmpty

/-- Case-insensitive substring match: the semantics of the Mongo filter
\x7b"$regex": pat, "$options": "i"\x7d for a pattern without regex
metacharacters, which is how the handler uses it. -/
def icontains (s pat : String) : Bool :=
  decide (lowerChars pat <:+: lowerChars s)

/-- The query shape for POST /coaches/search. -/
structure CoachQuery where
  sport : Option String
  city : Option String
  state : Option String
  q : Option String
deriving DecidableEq, Repr

/-- The Mongo filter dict built by search_coaches: each field is present
(some pattern) iff the corresponding clause was added to filt. -/
structure CoachFilter where
  sports : Option String
  location_city : Option String
  location_state : Option String
  orFullNameBio : Option String
deriving DecidableEq, Repr

/-- Lines 69-81 of src/main.py: a clause is added for each truthy query
field; q contributes an $or over full_name and bio. -/
def buildCoachFilter (query : CoachQuery) : CoachFilter :=
  { sports := if truthy query.sport then query.sport else none,
    location_city := if truthy query.city then query.city else none,
    location_state := if truthy query.state then query.state else none,
    orFullNameBio := if truthy query.q then query.q else none }

/-- Document-store semantics of the built filter: conjunction of an exact
tag match on the sports array and case-insensitive substring matches;
an absent clause matches everything. -/
def matchesCoachFilter (filt : CoachFilter) (c : CoachDoc) : Bool :=
  (match filt.sports with
   | none => true
   | some v => c.sports.contains v) &&
  (match filt.location_city with
   | none => true
   | some v => icontains c.location_city v) &&
  (match filt.location_state with
   | none => true
   | some v => icontains c.location_state v) &&
  (match filt.orFullNameBio with
   | none => true
   | some v => icontains c.full_name v || icontains c.bio v)

/-- Modelled from the spec: find-documents(collection, filter, limit) from
the missing database.py — returns up to limit matching documents in
store-native order, here for the coach collection. -/
def get_documents_coach (db : Store) (filt : CoachFilter) (limit : Nat) : List CoachDoc :=
  (db.coaches.filter (matchesCoachFilter filt)).take limit

/-- POST /coaches/search: build the filter, fetch up to 50 documents, rename
the identifier field to a plain id. -/
def search_coaches (db : Store) (query : CoachQuery) : List CoachOut :=
  (get_documents_coach db (buildCoachFilter query) 50).map shapeCoach

/-- Round-half-to-even on a rational, the semantics of Python round() on an
exactly-representable value. -/
def roundHalfEven (q : ℚ) : ℤ :=
  let f : ℤ := ⌊q⌋
  if q - f < 1/2 then f
  else if 1/2 < q - f then f + 1
  else if f % 2 = 0 then f else f + 1

/-- Python round(x, 2): round half to even at two decimal places. -/
def round2 (q : ℚ) : ℚ :=
  (roundHalfEven (q * 100) : ℚ) / 100

/-- Mongo update_one on the coach collection with filter \x7b_id: oid\x7d:
the first document whose identifier matches gets its aggregate fields set;
later documents and non-matching documents are untouched.  Matching zero
documents is a no-op. -/
def update_one_coach (cs : List CoachDoc) (oid : String) (avg : ℚ) (n : Nat) : List CoachDoc :=
  match cs with
  | [] => []
  | c :: rest =>
    if c.oid = oid then
      { c with average_rating := some avg, review_count := some n } :: rest
    else
      c :: update_one_coach rest oid avg n

/-- The review dict as persisted: review.model_dump() with created_at
defaulted to the current server time by dict.setdefault. -/
def reviewData (now : Nat) (newOid : String) (review : Review) : ReviewDoc :=
  { oid := newOid, coach_id := review.coach_id, rating := review.rating,
    text := review.text, created_at := some (review.created_at.getD now) }

/-- POST /reviews: stamp created_at with the current time when the caller
omitted it (dict.setdefault inserts only when the key is absent), persist
the review, then best-effort recompute the parent coach aggregates inside a
try/except-pass.  storeOk models whether the store calls inside the try
block succeed; ObjectId(review.coach_id) raises inside the same block when
the id is malformed.  Either failure silently skips the aggregate update. -/
def create_review (now : Nat) (newOid : String) (storeOk : Bool) (db : Store) (review : Review) :
    Except HTTPException String × Store :=
  let data : ReviewDoc := reviewData now newOid review
  let db1 : Store := { db with reviews := db.reviews ++ [data] }
  let db2 : Store :=
    if isValidOid review.coach_id && storeOk then
      let reviews := db1.reviews.filter (fun r => r.coach_id = review.coach_id)
      if reviews = [] then db1
      else
        let avg : ℚ := (reviews.map (fun r => r.rating.getD 0)).sum / reviews.length
        { db1 with coaches :=
            update_one_coach db1.coaches (strLower review.coach_id) (round2 avg) reviews.length }
    else db1
  (.ok newOid, db2)

/-- Ordering on Mongo sort keys: an absent created_at sorts below every
present timestamp, so a descending sort puts it last. -/
def createdAtLE : Option Nat → Option Nat → Bool
  | none, _ => true
  | some _, none => false
  | some a, some b => a ≤ b

/-- The descending-by-created_at relation used by .sort("created_at", -1):
a comes before b when the key of b is at most the key of a. -/
def descBy (key : α → Option Nat) (a b : α) : Prop :=
  createdAtLE (key b) (key a) = true

instance (key : α → Option Nat) : DecidableRel (descBy key) :=
  fun _ _ => instDecidableEqBool _ _

theorem createdAtLE_total (x y : Option Nat) : createdAtLE x y || createdAtLE y x := by
  cases x <;> cases y <;> simp [createdAtLE] <;> omega

theorem createdAtLE_trans {x y z : Option Nat} (h1 : createdAtLE x y = true)
    (h2 : createdAtLE y z = true) : createdAtLE x z = true := by
  cases x <;> cases y <;> cases z <;> simp_all [createdAtLE] <;> omega

instance (key : α → Option Nat) : IsTotal α (descBy key) := by
  refine ⟨fun a b => ?_⟩
  rcases Bool.or_eq_true_iff.mp (createdAtLE_total (key b) (key a)) with h | h
  · exact Or.inl h
  · exact Or.inr h

instance (key : α → Option Nat) : IsTrans α (descBy key) :=
  ⟨fun _ _ _ h1 h2 => createdAtLE_trans h2 h1⟩

/-- Response shape of a review after the handler renames _id to id. -/
structure ReviewOut where
  id : String
  coach_id : String
  rating : Option ℚ
  text : String
  created_at : Option Nat
deriving DecidableEq, Repr

/-- r["id"] = str(r["_id"]); r.pop("_id"). -/
def shapeReview (r : ReviewDoc) : ReviewOut :=
  { id := r.oid, coach_id := r.coach_id, rating := r.rating,
    text := r.text, created_at := r.created_at }

/-- Response shape of a booking after the handler renames _id to id. -/
structure BookingOut where
  id : String
  coach_id : String
  user_type : String
  athlete_age : Option Int
  created_at : Option Nat
deriving DecidableEq, Repr

/-- b["id"] = str(b["_id"]); b.pop("_id"). -/
def shapeBooking (b : BookingDoc) : BookingOut :=
  { id := b.oid, coach_id := b.coach_id, user_type := b.user_type,
    athlete_age := b.athlete_age, created_at := b.created_at }

/-- GET /coaches/\x7bcoach_id\x7d/reviews: all reviews whose coach_id field
equals the path parameter, sorted by created_at descending, identifier
renamed to id. -/
def list_reviews (db : Store) (coach_id : String) : List ReviewOut :=
  (List.insertionSort (descBy (fun r : ReviewDoc => r.created_at))
    (db.reviews.filter (fun r => r.coach_id = coach_id))).map shapeReview

/-- GET /coaches/\x7bcoach_id\x7d/bookings: all bookings whose coach_id field
equals the path parameter, sorted by created_at descending, identifier
renamed to id. -/
def list_bookings_for_coach (db : Store) (coach_id : String) : List BookingOut :=
  (List.insertionSort (descBy (fun b : BookingDoc => b.created_at))
    (db.bookings.filter (fun b => b.coach_id = coach_id))).map shapeBooking

/-- The environment GET /test inspects: whether the store handle exists,
whether DATABASE_URL is set, the db.name attribute (whose access may raise),
and list_collection_names (which may raise).  Raised exceptions carry their
message string. -/
structure DbEnv where
  dbIsSome : Bool
  databaseUrlSet : Bool
  hasNameAttr : Bool
  nameAttr : Except String String
  listCollectionNames : Except String (List String)

/-- The JSON object GET /test returns. -/
structure TestResponse where
  backend : String
  database : String
  database_url : Option String
  database_name : Option String
  connection_status : String
  collections : List String
deriving DecidableEq, Repr

/-- GET /test: builds the response dict, then fills it in under a try whose
except clause folds any exception into the database status string; the inner
try around list_collection_names folds its failures likewise.  The error
payload of the body carries the response as already mutated when the
exception was raised, since the dict is updated in place. -/
def test_database (env : DbEnv) : Except HTTPException TestResponse :=
  let r0 : TestResponse :=
    { backend := "✅ Running", database := "❌ Not Available",
      database_url := none, database_name := none,
      connection_status := "Not Connected", collections := [] }
  let body : Except (String × TestResponse) TestResponse :=
    if env.dbIsSome then
      let r1 : TestResponse :=
        { r0 with
          database := "✅ Available",
          database_url := some (if env.databaseUrlSet then "✅ Set" else "❌ Not Set") }
      match (if env.hasNameAttr then env.nameAttr else .ok "✅ Connected") with
      | .error e => .error (e, r1)
      | .ok nm =>
        let r2 : TestResponse :=
          { r1 with database_name := some nm, connection_status := "Connected" }
        match env.listCollectionNames with
        | .ok collections =>
          .ok { r2 with
                collections := collections.take 10,
                database := "✅ Connected & Working" }
        | .error e =>
          .ok { r2 with database := "⚠️  Connected but Error: " ++ e.take 80 }
    else
      .ok { r0 with database := "⚠️  Available but not initialized" }
  match body with
  | .ok r => .ok r
  | .error (e, r) => .ok { r with database := "❌ Error: " ++ e.take 80 }

/-- An error response of class 400 carrying a nonempty (human-readable)
detail message. -/
def isClientError400 : Except HTTPException String → Bool
  | .error e => e.status_code = 400 && !e.detail.isEmpty
  | .ok _ => false

/-- Sample data used by the concrete theorems and witnesses below. -/
def oidA : String := "0123456789abcdef01234567"

def oidB : String := "aaaabbbbccccddddeeeeffff"

def emptyStore : Store := ⟨[], [], []⟩

def coachDoc1 : CoachDoc :=
  ⟨oidA, "Alice Smith", "tennis pro", ["tennis"], "Austin", "TX", none, none⟩

def store1 : Store := ⟨[coachDoc1], [], []⟩

/-- C1: the claim says a well-formed identifier matching no coach document
yields 404; on the code, the handler-raised 404 is itself caught by the
surrounding except-Exception clause and re-raised as the 400, so the request
yields 400 "Invalid coach id" instead. -/
theorem get_coach_absent_id_yields_400_not_404 :
    isValidOid oidA = true ∧
    emptyStore.coaches.find? (fun c => c.oid = strLower oidA) = none ∧
    get_coach emptyStore oidA = .error ⟨400, "Invalid coach id"⟩ := by
  refine ⟨by decide, rfl, rfl⟩

/-- C1 (amended): a malformed identifier yields 400, and a well-formed
identifier matching no coach document also yields the same 400 "Invalid
coach id" — the not-found case is collapsed into the bad-request class. -/
theorem get_coach_error_classes (db : Store) (coach_id : String) :
    (isValidOid coach_id = false →
       get_coach db coach_id = .error ⟨400, "Invalid coach id"⟩) ∧
    (isValidOid coach_id = true →
       db.coaches.find? (fun c => c.oid = strLower coach_id) = none →
       get_coach db coach_id = .error ⟨400, "Invalid coach id"⟩) := by
  constructor
  · intro h
    simp [get_coach, get_coach_body, h]
  · intro h hnone
    simp [get_coach, get_coach_body, h, hnone]

theorem get_coach_error_classes_witness :
    get_coach emptyStore "zzz" = .error ⟨400, "Invalid coach id"⟩ ∧
    get_coach store1 oidB = .error ⟨400, "Invalid coach id"⟩ :=
  ⟨(get_coach_error_classes emptyStore "zzz").1 (by decide),
   (get_coach_error_classes store1 oidB).2 (by decide) (by decide)⟩

/-- C2: the five booking-validation cases — adult with age 17 rejected with
400, adult with age 25 accepted, parent with age 12 accepted, parent with
age absent rejected, parent with age 20 rejected. -/
theorem create_booking_validation_cases :
    (create_booking oidB emptyStore ⟨oidA, "adult", some 17, none⟩).1 =
      .error ⟨400, "Adults must be 18+"⟩ ∧
    (create_booking oidB emptyStore ⟨oidA, "adult", some 25, none⟩).1 = .ok oidB ∧
    (create_booking oidB emptyStore ⟨oidA, "parent", some 12, none⟩).1 = .ok oidB ∧
    (create_booking oidB emptyStore ⟨oidA, "parent", none, none⟩).1 =
      .error ⟨400, "Provide athlete_age for parent bookings and must be < 18"⟩ ∧
    (create_booking oidB emptyStore ⟨oidA, "parent", some 20, none⟩).1 =
      .error ⟨400, "Provide athlete_age for parent bookings and must be < 18"⟩ :=
  ⟨rfl, rfl, rfl, rfl, rfl⟩

/-- C5: a booking violating the adult/parent age rule is rejected with a 400
client error carrying a nonempty human-readable reason, and the store is
unchanged — nothing is persisted on rejection. -/
theorem create_booking_rejects_before_persist (newOid : String) (db : Store) (booking : Booking)
    (h : (booking.user_type = "adult" ∧ ∃ a, booking.athlete_age = some a ∧ a < 18) ∨
         (booking.user_type = "parent" ∧
           (booking.athlete_age = none ∨ ∃ a, booking.athlete_age = some a ∧ 18 ≤ a))) :
    isClientError400 (create_booking newOid db booking).1 = true ∧
    (create_booking newOid db booking).2 = db := by
  rcases h with ⟨hu, a, ha, hlt⟩ | ⟨hu, hage⟩
  · simp [create_booking, hu, ha, hlt, isClientError400]
    decide
  · have hne : booking.user_type ≠ "adult" := by simp [hu]
    rcases hage with ha | ⟨a, ha, hge⟩
    · simp [create_booking, hne, ha, isClientError400]
      decide
    · simp [create_booking, hne, ha, hge, isClientError400]
      decide

theorem create_booking_rejects_before_persist_witness :
    isClientError400 (create_booking oidB store1 ⟨oidA, "adult", some 17, none⟩).1 = true ∧
    (create_booking oidB store1 ⟨oidA, "adult", some 17, none⟩).2 = store1 :=
  create_booking_rejects_before_persist oidB store1 ⟨oidA, "adult", some 17, none⟩
    (Or.inl ⟨rfl, 17, rfl, by decide⟩)

/-- C10: every user_type other than the exact string "adult" is validated by
the parent rule — rejected with 400 unless athlete_age is present and
strictly below 18, accepted otherwise — and an adult booking with
athlete_age absent is accepted. -/
theorem create_booking_nonadult_rule (newOid : String) (db : Store) (booking : Booking) :
    (booking.user_type ≠ "adult" →
      ((booking.athlete_age = none ∨ ∃ a, booking.athlete_age = some a ∧ 18 ≤ a) →
         isClientError400 (create_booking newOid db booking).1 = true) ∧
      (∀ a, booking.athlete_age = some a → a < 18 →
         (create_booking newOid db booking).1 = .ok newOid)) ∧
    (booking.user_type = "adult" → booking.athlete_age = none →
      (create_booking newOid db booking).1 = .ok newOid) := by
  refine ⟨fun hne => ⟨fun hage => ?_, fun a ha hlt => ?_⟩, fun hu ha => ?_⟩
  · rcases hage with ha | ⟨a, ha, hge⟩
    · simp [create_booking, hne, ha, isClientError400]
      decide
    · simp [create_booking, hne, ha, hge, isClientError400]
      decide
  · have hge : ¬(18 ≤ a) := by omega
    simp [create_booking, hne, ha, hge, create_document_booking]
  · simp [create_booking, hu, ha, create_document_booking]

theorem create_booking_nonadult_rule_witness :
    (create_booking oidB store1 ⟨oidA, "coach", some 10, none⟩).1 = .ok oidB ∧
    isClientError400 (create_booking oidB store1 ⟨oidA, "coach", none, none⟩).1 = true ∧
    (create_booking oidB store1 ⟨oidA, "adult", none, none⟩).1 = .ok oidB :=
  ⟨((create_booking_nonadult_rule oidB store1 ⟨oidA, "coach", some 10, none⟩).1
      (by simp)).2 10 rfl (by decide),
   ((create_booking_nonadult_rule oidB store1 ⟨oidA, "coach", none, none⟩).1
      (by simp)).1 (Or.inl rfl),
   (create_booking_nonadult_rule oidB store1 ⟨oidA, "adult", none, none⟩).2 rfl rfl⟩

/-- The review collection after create_review: the new document is appended
with created_at defaulted to the server time, and nothing else in the
collection changes, whatever happens to the aggregate update. -/
theorem create_review_reviews_eq (now : Nat) (newOid : String) (storeOk : Bool)
    (db : Store) (review : Review) :
    (create_review now newOid storeOk db review).2.reviews =
      db.reviews ++ [reviewData now newOid review] := by
  unfold create_review
  dsimp only
  split
  · split <;> rfl
  · rfl

/-- C4: when the coach_id of the review is not a well-formed store identifier, or
the store operations of the aggregate update fail, the aggregate update is
silently skipped — the coach collection is untouched — while the review is
persisted and the request succeeds with the id of the new review. -/
theorem create_review_best_effort (now : Nat) (newOid : String) (storeOk : Bool)
    (db : Store) (review : Review)
    (h : isValidOid review.coach_id = false ∨ storeOk = false) :
    (create_review now newOid storeOk db review).1 = .ok newOid ∧
    (create_review now newOid storeOk db review).2.coaches = db.coaches ∧
    (create_review now newOid storeOk db review).2.reviews =
      db.reviews ++ [reviewData now newOid review] := by
  have hguard : (isValidOid review.coach_id && storeOk) = false := by
    rcases h with h | h <;> simp [h]
  refine ⟨rfl, ?_, create_review_reviews_eq now newOid storeOk db review⟩
  unfold create_review
  dsimp only
  rw [hguard]
  simp

theorem create_review_best_effort_witness :
    (create_review 1000 oidB true store1 ⟨"badid", some 3, "ok", none⟩).1 = .ok oidB ∧
    (create_review 1000 oidB true store1 ⟨"badid", some 3, "ok", none⟩).2.coaches =
      store1.coaches ∧
    (create_review 1000 oidB true store1 ⟨"badid", some 3, "ok", none⟩).2.reviews =
      store1.reviews ++ [{ oid := oidB, coach_id := "badid", rating := some 3,
                           text := "ok", created_at := some 1000 }] :=
  create_review_best_effort 1000 oidB true store1 ⟨"badid", some 3, "ok", none⟩
    (Or.inl (by decide))

/-- C8: when the caller omitted created_at, the persisted review document is
stamped with the current server time. -/
theorem create_review_stamps_created_at (now : Nat) (newOid : String) (storeOk : Bool)
    (db : Store) (review : Review) (h : review.created_at = none) :
    (create_review now newOid storeOk db review).2.reviews =
      db.reviews ++ [{ oid := newOid, coach_id := review.coach_id, rating := review.rating,
                       text := review.text, created_at := some now }] := by
  rw [create_review_reviews_eq]
  simp [reviewData, h]

theorem create_review_stamps_created_at_witness :
    (create_review 1000 oidB true store1 ⟨oidA, some 4, "great", none⟩).2.reviews =
      store1.reviews ++ [{ oid := oidB, coach_id := oidA, rating := some 4,
                           text := "great", created_at := some 1000 }] :=
  create_review_stamps_created_at 1000 oidB true store1 ⟨oidA, some 4, "great", none⟩ rfl

/-- update_one with filter \x7b_id: oid\x7d leaves the position of the first
matching document in place, so find? with the same key returns exactly that
document with its aggregate fields set. -/
theorem find?_update_one_coach (cs : List CoachDoc) (oid : String) (avg : ℚ) (n : Nat)
    (c : CoachDoc) (h : cs.find? (fun x => x.oid = oid) = some c) :
    (update_one_coach cs oid avg n).find? (fun x => x.oid = oid) =
      some { c with average_rating := some avg, review_count := some n } := by
  induction cs with
  | nil => simp at h
  | cons hd tl ih =>
    by_cases hoid : hd.oid = oid
    · rw [List.find?_cons_of_pos _ (by simpa using hoid)] at h
      cases h
      unfold update_one_coach
      rw [if_pos hoid]
      exact List.find?_cons_of_pos _ (by simpa using hoid)
    · rw [List.find?_cons_of_neg _ (by simpa using hoid)] at h
      unfold update_one_coach
      rw [if_neg hoid]
      rw [List.find?_cons_of_neg _ (by simpa using hoid)]
      exact ih h

/-- C3: after creating a review whose coach_id is a well-formed identifier
resolving to a stored coach, the coach document carries average_rating =
round2 of the mean over the ratings of all stored reviews referencing that
coach_id (a missing rating counted as 0) and review_count = their number —
recomputed from the post-insert review collection itself. -/
theorem create_review_recomputes_aggregates (now : Nat) (newOid : String)
    (db : Store) (review : Review) (c : CoachDoc)
    (hvalid : isValidOid review.coach_id = true)
    (hfound : db.coaches.find? (fun x => x.oid = strLower review.coach_id) = some c) :
    let db2 := (create_review now newOid true db review).2
    let rs := db2.reviews.filter (fun r => r.coach_id = review.coach_id)
    rs.length ≠ 0 ∧
    db2.coaches.find? (fun x => x.oid = strLower review.coach_id) =
      some { c with
             average_rating :=
               some (round2 ((rs.map (fun r => r.rating.getD 0)).sum / (rs.length : ℚ))),
             review_count := some rs.length } := by
  intro db2 rs
  have hrev : db2.reviews = db.reviews ++ [reviewData now newOid review] :=
    create_review_reviews_eq now newOid true db review
  have hrs : rs = (db.reviews ++ [reviewData now newOid review]).filter
      (fun r => r.coach_id = review.coach_id) := by
    show db2.reviews.filter _ = _
    rw [hrev]
  have hne : ((db.reviews ++ [reviewData now newOid review]).filter
      (fun r => r.coach_id = review.coach_id)) ≠ [] := by
    rw [List.filter_append]
    simp [reviewData]
  have hcoaches : db2.coaches = update_one_coach db.coaches (strLower review.coach_id)
      (round2 (((((db.reviews ++ [reviewData now newOid review]).filter
          (fun r => r.coach_id = review.coach_id)).map (fun r => r.rating.getD 0)).sum) /
        ((((db.reviews ++ [reviewData now newOid review]).filter
          (fun r => r.coach_id = review.coach_id)).length : ℚ))))
      ((db.reviews ++ [reviewData now newOid review]).filter
          (fun r => r.coach_id = review.coach_id)).length := by
    show (create_review now newOid true db review).2.coaches = _
    unfold create_review
    simp only [hvalid, Bool.and_self, if_true]
    rw [if_neg hne]
  rw [hrs]
  refine ⟨fun h => hne (List.length_eq_zero.mp h), ?_⟩
  rw [hcoaches]
  exact find?_update_one_coach db.coaches (strLower review.coach_id) _ _ c hfound

theorem create_review_recomputes_aggregates_witness :
    (create_review 1000 oidB true store1 ⟨oidA, some 4, "great", none⟩).2.coaches.find?
        (fun x => x.oid = strLower oidA) =
      some { coachDoc1 with average_rating := some 4, review_count := some 1 } := by
  have h := create_review_recomputes_aggregates 1000 oidB store1 ⟨oidA, some 4, "great", none⟩
    coachDoc1 (by decide) (by decide)
  simp only at h
  obtain ⟨-, h2⟩ := h
  have hrs : (create_review 1000 oidB true store1 ⟨oidA, some 4, "great", none⟩).2.reviews.filter
      (fun r => r.coach_id = oidA) =
      [{ oid := oidB, coach_id := oidA, rating := some 4, text := "great",
         created_at := some 1000 }] := by decide
  rw [hrs] at h2
  rw [h2]
  norm_num [round2, roundHalfEven, coachDoc1]

/-- C9: GET /test never yields an HTTP error: for every store environment,
including an unreachable or uninitialized store and raising attribute or
collection listing calls, the handler returns a plain response object, with
at most 10 collection names. -/
theorem test_database_never_fails (env : DbEnv) :
    ∃ r, test_database env = .ok r ∧ r.collections.length ≤ 10 := by
  obtain ⟨dbSome, urlSet, hasName, nameA, lcn⟩ := env
  unfold test_database
  cases dbSome with
  | false => exact ⟨_, rfl, by simp⟩
  | true =>
    cases hasName with
    | false =>
      cases lcn with
      | ok cols =>
        refine ⟨_, rfl, ?_⟩
        simp [List.length_take]
      | error e => exact ⟨_, rfl, by simp⟩
    | true =>
      cases nameA with
      | error e => exact ⟨_, rfl, by simp⟩
      | ok nm =>
        cases lcn with
        | ok cols =>
          refine ⟨_, rfl, ?_⟩
          simp [List.length_take]
        | error e => exact ⟨_, rfl, by simp⟩

theorem isEmpty_false_of_ne {s : String} (h : s ≠ "") : s.isEmpty = false := by
  cases hb : s.isEmpty
  · rfl
  · exact absurd ((String.isEmpty_iff s).mp hb) h

/-- A document passing the built filter satisfies each present clause. -/
theorem matchesCoachFilter_spec {filt : CoachFilter} {c : CoachDoc}
    (h : matchesCoachFilter filt c = true) :
    (∀ v, filt.sports = some v → c.sports.contains v = true) ∧
    (∀ v, filt.location_city = some v → icontains c.location_city v = true) ∧
    (∀ v, filt.location_state = some v → icontains c.location_state v = true) ∧
    (∀ v, filt.orFullNameBio = some v →
      (icontains c.full_name v || icontains c.bio v) = true) := by
  unfold matchesCoachFilter at h
  rw [Bool.and_eq_true, Bool.and_eq_true, Bool.and_eq_true] at h
  obtain ⟨⟨⟨h1, h2⟩, h3⟩, h4⟩ := h
  refine ⟨fun v hv => ?_, fun v hv => ?_, fun v hv => ?_, fun v hv => ?_⟩
  · rw [hv] at h1; exact h1
  · rw [hv] at h2; exact h2
  · rw [hv] at h3; exact h3
  · rw [hv] at h4; exact h4

/-- C6: the search result has at most 50 coaches; each returned coach, with
the identifier renamed to id, satisfies every given clause — exact sport
tag, case-insensitive substring on city, state, and q against full_name or
bio; with no given clause the first 50 coaches are returned in store-native
order. -/
theorem search_coaches_spec (db : Store) (query : CoachQuery) :
    (search_coaches db query).length ≤ 50 ∧
    (∀ c ∈ search_coaches db query,
       (∀ v, query.sport = some v → v ≠ "" → c.sports.contains v = true) ∧
       (∀ v, query.city = some v → v ≠ "" → icontains c.location_city v = true) ∧
       (∀ v, query.state = some v → v ≠ "" → icontains c.location_state v = true) ∧
       (∀ v, query.q = some v → v ≠ "" →
          (icontains c.full_name v || icontains c.bio v) = true)) ∧
    (truthy query.sport = false → truthy query.city = false →
     truthy query.state = false → truthy query.q = false →
     search_coaches db query = (db.coaches.take 50).map shapeCoach) := by
  refine ⟨?_, ?_, ?_⟩
  · show ((get_documents_coach db (buildCoachFilter query) 50).map shapeCoach).length ≤ 50
    rw [List.length_map]
    exact List.length_take_le 50 _
  · intro c hc
    obtain ⟨d, hd, rfl⟩ := List.mem_map.mp hc
    have hdf : d ∈ db.coaches.filter (matchesCoachFilter (buildCoachFilter query)) :=
      List.mem_of_mem_take hd
    have hmatch : matchesCoachFilter (buildCoachFilter query) d = true :=
      (List.mem_filter.mp hdf).2
    obtain ⟨h1, h2, h3, h4⟩ := matchesCoachFilter_spec hmatch
    refine ⟨fun v hv hne => ?_, fun v hv hne => ?_, fun v hv hne => ?_, fun v hv hne => ?_⟩
    · refine h1 v ?_
      simp [buildCoachFilter, truthy, hv, isEmpty_false_of_ne hne]
    · refine h2 v ?_
      simp [buildCoachFilter, truthy, hv, isEmpty_false_of_ne hne]
    · refine h3 v ?_
      simp [buildCoachFilter, truthy, hv, isEmpty_false_of_ne hne]
    · refine h4 v ?_
      simp [buildCoachFilter, truthy, hv, isEmpty_false_of_ne hne]
  · intro hs hc hst hq
    have hfilt : buildCoachFilter query = ⟨none, none, none, none⟩ := by
      simp [buildCoachFilter, hs, hc, hst, hq]
    show (get_documents_coach db (buildCoachFilter query) 50).map shapeCoach = _
    rw [hfilt]
    unfold get_documents_coach
    rw [List.filter_eq_self.mpr (fun a _ => by simp [matchesCoachFilter])]

theorem search_coaches_spec_witness :
    (search_coaches store1 ⟨none, some "aus", none, none⟩).length ≤ 50 ∧
    icontains (shapeCoach coachDoc1).location_city "aus" = true ∧
    search_coaches store1 ⟨none, none, none, none⟩ =
      (store1.coaches.take 50).map shapeCoach :=
  ⟨(search_coaches_spec store1 ⟨none, some "aus", none, none⟩).1,
   ((search_coaches_spec store1 ⟨none, some "aus", none, none⟩).2.1 (shapeCoach coachDoc1)
      (by decide)).2.1 "aus" rfl (by decide),
   (search_coaches_spec store1 ⟨none, none, none, none⟩).2.2 rfl rfl rfl rfl⟩

/-- C7: each list endpoint returns exactly the stored documents whose
coach_id references the coach — a permutation of the filtered collection
with the identifier renamed to id — pairwise ordered by created_at
descending (an absent created_at ordered last). -/
theorem list_endpoints_newest_first (db : Store) (coach_id : String) :
    (list_reviews db coach_id).Perm
      ((db.reviews.filter (fun r => r.coach_id = coach_id)).map shapeReview) ∧
    (list_reviews db coach_id).Pairwise
      (fun a b => createdAtLE b.created_at a.created_at = true) ∧
    (list_bookings_for_coach db coach_id).Perm
      ((db.bookings.filter (fun b => b.coach_id = coach_id)).map shapeBooking) ∧
    (list_bookings_for_coach db coach_id).Pairwise
      (fun a b => createdAtLE b.created_at a.created_at = true) := by
  refine ⟨?_, ?_, ?_, ?_⟩
  · exact (List.perm_insertionSort _ _).map shapeReview
  · exact List.Pairwise.map shapeReview (fun a b hab => hab)
      (List.sorted_insertionSort (descBy (fun r : ReviewDoc => r.created_at)) _)
  · exact (List.perm_insertionSort _ _).map shapeBooking
  · exact List.Pairwise.map shapeBooking (fun a b hab => hab)
      (List.sorted_insertionSort (descBy (fun b : BookingDoc => b.created_at)) _)
